import Mathlib

/-!
Shallow embedding of `src/config/mod.rs` of wzmach (gesture-driven input
automation): the document model, serde defaulting, the loader, the action
factory and the merger `Config::make_triggers`, together with theorems
settling the specification claims.

Modelling conventions:
* `u32` fields carry decoded magnitudes and undergo no arithmetic in this
  layer, so they are modelled as `Nat`.
* `f64` fields (`pinch_distance`, `rotation_distance`) are literal values
  carried verbatim with no floating-point arithmetic in this layer, so they
  are modelled as `Rat`.
* `Rc<RefCell<uinput::Device>>` sharing is modelled by a numeric device id:
  each device construction yields a fresh id, and two `Rc` clones of one
  device are exactly the handles carrying the same id.
* Evaluation order and resource creation inside `make_triggers` are made
  observable through an event trace (`Ev`), threaded exactly in Rust's
  left-to-right evaluation order of the source.
-/

namespace Wzmach

/-- Modelled from the spec: `key::ConfigKey` (file `src/config/key.rs` is not
part of the shown sources). Per the spec's external-interface section it is a
deserialization wrapper around a single keycode; the source accesses its sole
public field as `x.0`, modelled here as `val`. -/
structure ConfigKey where
  val : Nat
deriving DecidableEq

/-- Modelled from the spec: `config::trigger::Trigger` (file
`src/config/trigger.rs` is not part of the shown sources). The spec treats the
trigger descriptor as opaque data to this core, so it is modelled as an opaque
tag. -/
structure Trigger where
  id : Nat
deriving DecidableEq

/-- `ConfigAction` from `src/config/mod.rs`: the closed three-variant action
descriptor. -/
inductive ConfigAction where
  | KeyboardInput (modifiers : List ConfigKey) (sequence : List ConfigKey)
  | ExecuteCommand (path : String) (args : List String)
  | InlineScript (code : String)
deriving DecidableEq

/-- `ConfigTrigger` from `src/config/mod.rs`: one entry pairing a trigger
descriptor with an action descriptor. -/
structure ConfigTrigger where
  trigger : Trigger
  action : ConfigAction
deriving DecidableEq

/-- `Config` from `src/config/mod.rs`: the document root. -/
structure Config where
  swipe_distance : Nat
  shear_distance : Nat
  pinch_distance : Rat
  rotation_distance : Rat
  global_triggers : List ConfigTrigger
  x11_triggers : List ConfigTrigger
  wayland_triggers : List ConfigTrigger
deriving DecidableEq

/-- Rust's `#[derive(Default)]` on `Config`: every field takes its type's
`Default::default()` (`u32` gives `0`, `f64` gives `0.0`, `Vec` gives `[]`).
The serde `#[serde(default = ...)]` attributes do not participate in the
derived `Default` implementation. -/
def Config.derivedDefault : Config where
  swipe_distance := 0
  shear_distance := 0
  pinch_distance := 0
  rotation_distance := 0
  global_triggers := []
  x11_triggers := []
  wayland_triggers := []

/-- `default_distance` from `src/config/mod.rs` (the `log::debug!` side
channel is advisory per the spec and does not affect the value). -/
def default_distance : Nat := 100

/-- `default_pinch` from `src/config/mod.rs`. -/
def default_pinch : Rat := 1.4

/-- `default_rotation` from `src/config/mod.rs`. -/
def default_rotation : Rat := 60.0

/-- `default_triggers` from `src/config/mod.rs`. -/
def default_triggers : List ConfigTrigger := []

/-- The realized action objects, `action::KeyboardInputAction`,
`action::ExecuteCommandAction` and `action::InlineScriptAction`, as
constructed by `ConfigAction::make`. The shared
`Rc<RefCell<uinput::Device>>` handle is modelled as its device id. -/
inductive Action where
  | KeyboardInputAction (device : Nat) (modifiers : List Nat) (sequence : List Nat)
  | ExecuteCommandAction (path : String) (args : List String)
  | InlineScriptAction (command : String)
deriving DecidableEq

/-- `ConfigAction::make` from `src/config/mod.rs`: descriptor to realized
action. The keyboard variant clones the shared device handle (same id) and
maps `|x| x.0` over modifiers and sequence; the other variants move their
fields verbatim. -/
def ConfigAction.make (a : ConfigAction) (input_device : Nat) : Action :=
  match a with
  | .KeyboardInput modifiers sequence =>
      .KeyboardInputAction input_device (modifiers.map (·.val)) (sequence.map (·.val))
  | .ExecuteCommand path args => .ExecuteCommandAction path args
  | .InlineScript code => .InlineScriptAction code

/-- The opaque `gesture_event::trigger::Trigger` produced by the consumed
trigger-realization capability. Modelled from the spec: the realized trigger
is opaque to this core beyond positional pairing, so it is recorded as the
descriptor plus the four threshold arguments the factory received. -/
structure RealizedTrigger where
  desc : Trigger
  swipe_distance : Nat
  shear_distance : Nat
  pinch_distance : Rat
  rotation_distance : Rat
deriving DecidableEq

/-- Modelled from the spec: `config::trigger::Trigger::make` (file
`src/config/trigger.rs` is not part of the shown sources) is the consumed
trigger-factory capability `descriptor, four thresholds -> RealizedTrigger`;
it is modelled as the opaque recorder of its arguments. -/
def Trigger.make (t : Trigger) (swipe_distance shear_distance : Nat)
    (pinch_distance rotation_distance : Rat) : RealizedTrigger :=
  ⟨t, swipe_distance, shear_distance, pinch_distance, rotation_distance⟩

/-- Observable events during one `Config::make_triggers` invocation, in the
source's evaluation order: device construction
(`KeyboardInputAction::default_device()`), a trigger-factory call and an
action-factory call, the latter two tagged with the index of the selected
entry they serve. -/
inductive Ev where
  | deviceCreate (id : Nat)
  | triggerCall (i : Nat) (t : Trigger) (swipe_distance shear_distance : Nat)
      (pinch_distance rotation_distance : Rat)
  | actionCall (i : Nat) (a : ConfigAction) (device : Nat)
deriving DecidableEq

/-- The per-entry event stream of `make_triggers`' `.map(...)` closure,
driven in order by `unzip`: for the entry at index `i`, the tuple expression
`(x.trigger.make(...), x.action.make(&input_device))` evaluates its first
component before its second (Rust evaluates tuple fields left to right), so
the trigger-factory call is emitted before the action-factory call. -/
def entryTrace (c : Config) (input_device : Nat) : Nat → List ConfigTrigger → List Ev
  | _, [] => []
  | i, x :: xs =>
      .triggerCall i x.trigger c.swipe_distance c.shear_distance
          c.pinch_distance c.rotation_distance
        :: .actionCall i x.action input_device
        :: entryTrace c input_device (i + 1) xs

/-- `Config::make_triggers` from `src/config/mod.rs`, instrumented with the
event trace. `firstId` is the id the next device construction would receive;
the first statement `let input_device = KeyboardInputAction::default_device();`
constructs the device unconditionally, before any entry is examined. The
selected entries are `global_triggers` chained with the wayland or x11 list
according to the flag, and the mapped pairs are unzipped into the two parallel lists. -/
def Config.make_triggersT (c : Config) (is_wayland : Bool) (firstId : Nat) :
    (List RealizedTrigger × List Action) × List Ev :=
  let input_device := firstId
  let sel := c.global_triggers ++ (if is_wayland then c.wayland_triggers else c.x11_triggers)
  let pairs := sel.map fun x =>
    (x.trigger.make c.swipe_distance c.shear_distance c.pinch_distance c.rotation_distance,
     x.action.make input_device)
  (pairs.unzip, Ev.deviceCreate input_device :: entryTrace c input_device 0 sel)

/-- `Config::make_triggers`: the pure result (trigger list, action list) of
the realization step, device ids starting at `0` for the invocation. -/
def Config.make_triggers (c : Config) (is_wayland : Bool) :
    List RealizedTrigger × List Action :=
  (c.make_triggersT is_wayland 0).1

/-- The selected concatenation of `make_triggers`: the global list followed by
the platform list the flag picks. -/
def Config.selected (c : Config) (is_wayland : Bool) : List ConfigTrigger :=
  c.global_triggers ++ (if is_wayland then c.wayland_triggers else c.x11_triggers)

/-- The device id a realized action holds: the shared handle for the Keyboard
variant, nothing for the stateless variants. -/
def Action.deviceId : Action → Option Nat
  | .KeyboardInputAction device _ _ => some device
  | _ => none

/-- Whether an action descriptor is the Keyboard variant. -/
def ConfigAction.isKeyboard : ConfigAction → Bool
  | .KeyboardInput _ _ => true
  | _ => false

/-- Whether an event is a device construction. -/
def Ev.isDeviceCreate : Ev → Bool
  | .deviceCreate _ => true
  | _ => false

/-- Whether an event is a trigger-factory call. -/
def Ev.isTriggerCall : Ev → Bool
  | .triggerCall .. => true
  | _ => false

/-- Whether an event is the trigger-factory call serving entry `i`. -/
def Ev.isTriggerCallFor (i : Nat) : Ev → Bool
  | .triggerCall j _ _ _ _ _ => j == i
  | _ => false

/-- Whether an event is the action-factory call serving entry `i`. -/
def Ev.isActionCallFor (i : Nat) : Ev → Bool
  | .actionCall j _ _ => j == i
  | _ => false

/-- The raw action value as the decoder sees it before variant dispatch: the
three tags `ConfigAction`'s serde `Deserialize` derive accepts, plus an
unknown tag, which the derived decoder rejects. -/
inductive RawAction where
  | KeyboardInput (modifiers : List ConfigKey) (sequence : List ConfigKey)
  | ExecuteCommand (path : String) (args : List String)
  | InlineScript (code : String)
  | unknownTag (tag : String)
deriving DecidableEq

/-- A raw entry before action-variant dispatch. -/
structure RawEntry where
  trigger : Trigger
  action : RawAction
deriving DecidableEq

/-- The parsed document before serde field defaulting: every top-level field
of `Config` carries a serde `default`, so every field may be absent. -/
structure RawConfig where
  swipe_distance : Option Nat
  shear_distance : Option Nat
  pinch_distance : Option Rat
  rotation_distance : Option Rat
  global_triggers : Option (List RawEntry)
  x11_triggers : Option (List RawEntry)
  wayland_triggers : Option (List RawEntry)
deriving DecidableEq

/-- Variant dispatch of `ConfigAction`'s derived `Deserialize`: the three
declared tags succeed; any other tag is a decode failure. -/
def decodeAction : RawAction → Except String ConfigAction
  | .KeyboardInput modifiers sequence => .ok (.KeyboardInput modifiers sequence)
  | .ExecuteCommand path args => .ok (.ExecuteCommand path args)
  | .InlineScript code => .ok (.InlineScript code)
  | .unknownTag tag => .error ("unknown action tag " ++ tag)

/-- Decoding one entry: the trigger descriptor is carried through and the
action tag is dispatched; any failure aborts the entry. -/
def decodeEntry (e : RawEntry) : Except String ConfigTrigger :=
  (decodeAction e.action).map fun a => ⟨e.trigger, a⟩

/-- Decoding an entry list: all-or-nothing, the first failure aborts. -/
def decodeEntries : List RawEntry → Except String (List ConfigTrigger)
  | [] => .ok []
  | e :: es => do
    let c ← decodeEntry e
    let cs ← decodeEntries es
    .ok (c :: cs)

/-- Field decoding of `Config`'s derived `Deserialize` with the
`#[serde(default = ...)]` attributes of `src/config/mod.rs`: an absent field
takes its documented default (never an error); a present field is decoded,
and any variant failure aborts the whole document (no partial population). -/
def decodeConfig (r : RawConfig) : Except String Config := do
  let g ← match r.global_triggers with
    | none => .ok default_triggers
    | some es => decodeEntries es
  let x ← match r.x11_triggers with
    | none => .ok default_triggers
    | some es => decodeEntries es
  let w ← match r.wayland_triggers with
    | none => .ok default_triggers
    | some es => decodeEntries es
  .ok
    { swipe_distance := r.swipe_distance.getD default_distance
      shear_distance := r.shear_distance.getD default_distance
      pinch_distance := r.pinch_distance.getD default_pinch
      rotation_distance := r.rotation_distance.getD default_rotation
      global_triggers := g
      x11_triggers := x
      wayland_triggers := w }

/-- The raw document in which every optional top-level field is omitted. -/
def RawConfig.allOmitted : RawConfig :=
  ⟨none, none, none, none, none, none, none⟩

/-- The two failure kinds of `Config::load`: the `std::io::Error` of
`read_to_string`, propagated unchanged, and the RON decode failure, wrapped by
`std::io::Error::new(ErrorKind::Other, e)`. -/
inductive LoadError where
  | ioError (msg : String)
  | decodeError (msg : String)
deriving DecidableEq

/-- `Config::load` from `src/config/mod.rs`. The storage read and the RON
syntax layer are external collaborators, passed in as `readResult` (the
outcome of `std::fs::read_to_string`) and `parse` (the syntactic layer of
`ron::from_str`, producing the raw field/variant structure that the derived
`Deserialize` modelled by `decodeConfig` then checks). A read failure is
propagated as `ioError` via the `?` operator; any decode failure is wrapped as
`decodeError`; logging is advisory and not modelled. -/
def Config.load (readResult : Except String String)
    (parse : String → Except String RawConfig) : Except LoadError Config :=
  match readResult with
  | .error e => .error (.ioError e)
  | .ok s =>
    match parse s with
    | .error e => .error (.decodeError e)
    | .ok raw =>
      match decodeConfig raw with
      | .error e => .error (.decodeError e)
      | .ok c => .ok c

/-! ### Concrete example documents used by witnesses and counterexamples -/

/-- A concrete document exercising all three action variants, with a Keyboard
entry in the global list and another in the wayland list. -/
def exConfig : Config where
  swipe_distance := 7
  shear_distance := 8
  pinch_distance := 2
  rotation_distance := 45
  global_triggers :=
    [⟨⟨1⟩, .ExecuteCommand "/bin/echo" ["hi"]⟩,
     ⟨⟨2⟩, .KeyboardInput [⟨10⟩] [⟨20⟩, ⟨21⟩]⟩]
  x11_triggers := [⟨⟨3⟩, .InlineScript "x"⟩]
  wayland_triggers := [⟨⟨4⟩, .KeyboardInput [] [⟨30⟩]⟩]

/-- A concrete document whose entries contain no Keyboard action at all. -/
def exConfigNoKeyboard : Config where
  swipe_distance := 100
  shear_distance := 100
  pinch_distance := 1
  rotation_distance := 60
  global_triggers := [⟨⟨1⟩, .ExecuteCommand "/bin/true" []⟩]
  x11_triggers := []
  wayland_triggers := []

/-- A concrete document with a single entry, for observing call order. -/
def exConfigOne : Config where
  swipe_distance := 2
  shear_distance := 3
  pinch_distance := 1
  rotation_distance := 4
  global_triggers := [⟨⟨1⟩, .ExecuteCommand "a" []⟩]
  x11_triggers := []
  wayland_triggers := []

/-! ### Shared lemmas about the merger -/

/-- The pure result of `make_triggersT`: the trigger list and the action list
are the two pointwise images of the selected concatenation. -/
theorem make_triggersT_result (c : Config) (b : Bool) (d : Nat) :
    (c.make_triggersT b d).1 =
      ((c.selected b).map fun x =>
        x.trigger.make c.swipe_distance c.shear_distance c.pinch_distance
          c.rotation_distance,
       (c.selected b).map fun x => x.action.make d) := by
  simp [Config.make_triggersT, Config.selected, List.unzip_eq_map, List.map_map]
  constructor <;> rfl

/-- The per-entry event stream contains no device construction. -/
theorem entryTrace_countP_deviceCreate (c : Config) (d : Nat) :
    ∀ (xs : List ConfigTrigger) (n : Nat),
      (entryTrace c d n xs).countP Ev.isDeviceCreate = 0
  | [], _ => rfl
  | x :: xs, n => by
    simp [entryTrace, List.countP_cons, Ev.isDeviceCreate,
      entryTrace_countP_deviceCreate c d xs (n + 1)]

/-- The per-entry event stream holds one trigger-factory call per entry. -/
theorem entryTrace_countP_triggerCall (c : Config) (d : Nat) :
    ∀ (xs : List ConfigTrigger) (n : Nat),
      (entryTrace c d n xs).countP Ev.isTriggerCall = xs.length
  | [], _ => rfl
  | x :: xs, n => by
    simp [entryTrace, List.countP_cons, Ev.isTriggerCall,
      entryTrace_countP_triggerCall c d xs (n + 1)]

/-- Every trigger-factory call in the per-entry event stream carries the
document's four thresholds. -/
theorem entryTrace_triggerCall_mem (c : Config) (d : Nat) :
    ∀ (xs : List ConfigTrigger) (n i : Nat) (t : Trigger) (sw sh : Nat)
      (p r : Rat),
      Ev.triggerCall i t sw sh p r ∈ entryTrace c d n xs →
      sw = c.swipe_distance ∧ sh = c.shear_distance ∧ p = c.pinch_distance ∧
        r = c.rotation_distance
  | [], _, _, _, _, _, _, _, hm => absurd hm (List.not_mem_nil _)
  | x :: xs, n, i, t, sw, sh, p, r, hm => by
    cases hm with
    | head => exact ⟨rfl, rfl, rfl, rfl⟩
    | tail _ hm' =>
      cases hm' with
      | tail _ hm'' =>
        exact entryTrace_triggerCall_mem c d xs (n + 1) i t sw sh p r hm''

/-- Exactly one trigger-factory call serves entry `i` in the per-entry event
stream started at index `n`, provided `i` lies in the served range. -/
theorem entryTrace_countP_triggerCallFor (c : Config) (d : Nat) :
    ∀ (xs : List ConfigTrigger) (n i : Nat),
      (entryTrace c d n xs).countP (Ev.isTriggerCallFor i) =
        if n ≤ i ∧ i < n + xs.length then 1 else 0
  | [], n, i => by
    simp only [entryTrace, List.countP_nil, List.length_nil]
    split_ifs <;> omega
  | x :: xs, n, i => by
    have ih := entryTrace_countP_triggerCallFor c d xs (n + 1) i
    simp [entryTrace, List.countP_cons, Ev.isTriggerCallFor, Ev.isActionCallFor, ih]
    split_ifs <;> omega

/-- Exactly one action-factory call serves entry `i` in the per-entry event
stream started at index `n`, provided `i` lies in the served range. -/
theorem entryTrace_countP_actionCallFor (c : Config) (d : Nat) :
    ∀ (xs : List ConfigTrigger) (n i : Nat),
      (entryTrace c d n xs).countP (Ev.isActionCallFor i) =
        if n ≤ i ∧ i < n + xs.length then 1 else 0
  | [], n, i => by
    simp only [entryTrace, List.countP_nil, List.length_nil]
    split_ifs <;> omega
  | x :: xs, n, i => by
    have ih := entryTrace_countP_actionCallFor c d xs (n + 1) i
    simp [entryTrace, List.countP_cons, Ev.isTriggerCallFor, Ev.isActionCallFor, ih]
    split_ifs <;> omega

/-- For entry `i` of the served list, the trigger-factory call and the
action-factory call occur, in that order, in the per-entry event stream. -/
theorem entryTrace_pair_sublist (c : Config) (d : Nat) :
    ∀ (xs : List ConfigTrigger) (n i : Nat) (h : i < xs.length),
      List.Sublist
        [Ev.triggerCall (n + i) (xs.get ⟨i, h⟩).trigger c.swipe_distance
           c.shear_distance c.pinch_distance c.rotation_distance,
         Ev.actionCall (n + i) (xs.get ⟨i, h⟩).action d]
        (entryTrace c d n xs)
  | [], _, i, h => absurd h (by simp)
  | x :: xs, n, 0, h =>
    .cons₂ _ (.cons₂ _ (List.nil_sublist _))
  | x :: xs, n, i + 1, h => by
    have h' : i < xs.length := Nat.lt_of_succ_lt_succ h
    have ih := entryTrace_pair_sublist c d xs (n + 1) i h'
    have e : n + 1 + i = n + (i + 1) := by omega
    rw [e] at ih
    exact .cons _ (.cons _ ih)

/-! ### Claim theorems -/

/-- C1: `realize(d, true)` yields exactly `len(global) + len(wayland)`
trigger/action pairs and `realize(d, false)` exactly `len(global) + len(x11)`;
each result list is the in-order image of the concatenation of the global list
with the selected platform list, so the unselected list never contributes and
relative order is preserved. -/
theorem realize_selects_platform (d : Config) :
    (d.make_triggers true).1.length = d.global_triggers.length + d.wayland_triggers.length ∧
    (d.make_triggers true).2.length = d.global_triggers.length + d.wayland_triggers.length ∧
    (d.make_triggers false).1.length = d.global_triggers.length + d.x11_triggers.length ∧
    (d.make_triggers false).2.length = d.global_triggers.length + d.x11_triggers.length ∧
    ∀ b : Bool,
      (d.make_triggers b).1 =
        (d.global_triggers ++ if b then d.wayland_triggers else d.x11_triggers).map
          (fun x => x.trigger.make d.swipe_distance d.shear_distance
            d.pinch_distance d.rotation_distance) ∧
      (d.make_triggers b).2 =
        (d.global_triggers ++ if b then d.wayland_triggers else d.x11_triggers).map
          (fun x => x.action.make 0) := by
  have key : ∀ b : Bool,
      (d.make_triggers b).1 =
        (d.global_triggers ++ if b then d.wayland_triggers else d.x11_triggers).map
          (fun x => x.trigger.make d.swipe_distance d.shear_distance
            d.pinch_distance d.rotation_distance) ∧
      (d.make_triggers b).2 =
        (d.global_triggers ++ if b then d.wayland_triggers else d.x11_triggers).map
          (fun x => x.action.make 0) := by
    intro b
    have h := make_triggersT_result d b 0
    exact ⟨by rw [Config.make_triggers, h]; rfl, by rw [Config.make_triggers, h]; rfl⟩
  refine ⟨?_, ?_, ?_, ?_, key⟩
  · rw [(key true).1]; simp
  · rw [(key true).2]; simp
  · rw [(key false).1]; simp
  · rw [(key false).2]; simp

/-- C2: for every Document and flag the two result lists have equal length,
and the i-th realized trigger and i-th realized action are both produced from
the i-th Entry of the selected concatenation. -/
theorem realize_index_aligned (d : Config) (b : Bool) :
    (d.make_triggers b).1.length = (d.make_triggers b).2.length ∧
    ∀ i (h : i < (d.selected b).length),
      (d.make_triggers b).1[i]? =
        some ((d.selected b)[i].trigger.make d.swipe_distance d.shear_distance
          d.pinch_distance d.rotation_distance) ∧
      (d.make_triggers b).2[i]? = some ((d.selected b)[i].action.make 0) := by
  have h := make_triggersT_result d b 0
  rw [Config.make_triggers, h]
  refine ⟨by simp, ?_⟩
  intro i hi
  constructor
  · simp [List.getElem?_map, List.getElem?_eq_getElem hi]
  · simp [List.getElem?_map, List.getElem?_eq_getElem hi]

/-- Witness for C2: on the example document with platform flag false, the
selected concatenation is global then x11; at index 2 the pair is built from
the x11 entry (trigger 3, inline script "x"). -/
theorem realize_index_aligned_witness :
    (exConfig.make_triggers false).1.length = (exConfig.make_triggers false).2.length ∧
    (exConfig.make_triggers false).1[2]? = some ((Trigger.mk 3).make 7 8 2 45) ∧
    (exConfig.make_triggers false).2[2]? =
      some ((ConfigAction.InlineScript "x").make 0) := by
  have h := realize_index_aligned exConfig false
  exact ⟨h.1, (h.2 2 (by decide)).1, (h.2 2 (by decide)).2⟩

/-- C6: the Action Factory carries each descriptor's literal fields into the
realized action unchanged: a Keyboard descriptor yields the shared device
handle plus its modifier and key lists mapped through the `ConfigKey` wrapper
projection `|x| x.0` in order; an External-command descriptor yields exactly
the given path and argument list; an Inline-script descriptor yields exactly
the given code string. -/
theorem make_roundtrips_descriptor_fields (input_device : Nat)
    (modifiers sequence : List ConfigKey) (path : String) (args : List String)
    (code : String) :
    (ConfigAction.KeyboardInput modifiers sequence).make input_device =
      .KeyboardInputAction input_device (modifiers.map ConfigKey.val)
        (sequence.map ConfigKey.val) ∧
    (ConfigAction.ExecuteCommand path args).make input_device =
      .ExecuteCommandAction path args ∧
    (ConfigAction.InlineScript code).make input_device =
      .InlineScriptAction code :=
  ⟨rfl, rfl, rfl⟩

/-- C3: decoding the document that omits every optional top-level field
succeeds, and the result is the Document with swipe distance 100, shear
distance 100, pinch scale 1.4, rotation angle 60.0 and all three trigger
lists empty. -/
theorem decode_allOmitted_gives_documented_defaults :
    decodeConfig RawConfig.allOmitted =
      .ok { swipe_distance := 100
            shear_distance := 100
            pinch_distance := 1.4
            rotation_distance := 60.0
            global_triggers := []
            x11_triggers := []
            wayland_triggers := [] } := by
  rfl

/-- C10: the derived `Default` of `Config` has all four thresholds zero and
all three lists empty, and it differs from the Document obtained by decoding a
configuration that omits all optional fields, whose thresholds are the
documented defaults 100, 100, 1.4, 60.0. -/
theorem derivedDefault_is_zero_and_differs_from_decoded :
    Config.derivedDefault =
      { swipe_distance := 0
        shear_distance := 0
        pinch_distance := 0
        rotation_distance := 0
        global_triggers := []
        x11_triggers := []
        wayland_triggers := [] } ∧
    decodeConfig RawConfig.allOmitted =
      .ok { swipe_distance := 100
            shear_distance := 100
            pinch_distance := 1.4
            rotation_distance := 60.0
            global_triggers := []
            x11_triggers := []
            wayland_triggers := [] } ∧
    ({ swipe_distance := 100
       shear_distance := 100
       pinch_distance := 1.4
       rotation_distance := 60.0
       global_triggers := []
       x11_triggers := []
       wayland_triggers := [] } : Config) ≠ Config.derivedDefault := by
  refine ⟨rfl, rfl, ?_⟩
  decide

/-- C7: `load` fails with `ioError` when the read fails, with `decodeError`
when the RON syntax layer or the schema layer rejects the content (an unknown
action tag is such a rejection), the failure is propagated to the caller, and
the result is always a whole Document or a single classified error — never a
partial population. -/
theorem load_error_classification :
    (∀ e parse, Config.load (.error e) parse = .error (.ioError e)) ∧
    (∀ s e parse, parse s = .error e →
      Config.load (.ok s) parse = .error (.decodeError e)) ∧
    (∀ s raw e parse, parse s = .ok raw → decodeConfig raw = .error e →
      Config.load (.ok s) parse = .error (.decodeError e)) ∧
    (∀ tag trig,
      decodeConfig { RawConfig.allOmitted with
          global_triggers := some [⟨trig, .unknownTag tag⟩] } =
        .error ("unknown action tag " ++ tag)) ∧
    (∀ readResult parse,
      (∃ c, Config.load readResult parse = .ok c) ∨
      (∃ m, Config.load readResult parse = .error (.ioError m)) ∨
      (∃ m, Config.load readResult parse = .error (.decodeError m))) := by
  refine ⟨fun e parse => rfl, ?_, ?_, ?_, ?_⟩
  · intro s e parse h
    simp [Config.load, h]
  · intro s raw e parse hp hd
    simp [Config.load, hp, hd]
  · intro tag trig
    rfl
  · intro readResult parse
    match hl : Config.load readResult parse with
    | .ok c => exact Or.inl ⟨c, rfl⟩
    | .error (.ioError m) => exact Or.inr (Or.inl ⟨m, rfl⟩)
    | .error (.decodeError m) => exact Or.inr (Or.inr ⟨m, rfl⟩)

/-- Witness for C7: a failed read with message "enoent" comes back as that
`ioError`; a syntax failure and an unknown action tag `"Bogus"` come back as
`decodeError`s. -/
theorem load_error_classification_witness :
    Config.load (.error "enoent") (fun _ => .ok RawConfig.allOmitted) =
      .error (.ioError "enoent") ∧
    Config.load (.ok "x") (fun _ => .error "bad syntax") =
      .error (.decodeError "bad syntax") ∧
    Config.load (.ok "y")
        (fun _ => .ok { RawConfig.allOmitted with
          global_triggers := some [⟨⟨0⟩, .unknownTag "Bogus"⟩] }) =
      .error (.decodeError ("unknown action tag " ++ "Bogus")) := by
  refine ⟨load_error_classification.1 "enoent" _, ?_, ?_⟩
  · exact load_error_classification.2.1 "x" "bad syntax" _ rfl
  · exact load_error_classification.2.2.1 "y" _ _ _ rfl
      (load_error_classification.2.2.2.1 "Bogus" ⟨0⟩)

/-- C4: within one realization invocation every Keyboard realized action
holds the same shared device handle: any two actions in the result that carry
a device id carry the same one (the invocation's single constructed device). -/
theorem keyboard_actions_share_device (c : Config) (b : Bool) (d : Nat)
    (a₁ a₂ : Action) (h₁ : a₁ ∈ (c.make_triggersT b d).1.2)
    (h₂ : a₂ ∈ (c.make_triggersT b d).1.2)
    (i j : Nat) (hd₁ : a₁.deviceId = some i) (hd₂ : a₂.deviceId = some j) :
    i = j := by
  have key : ∀ a ∈ (c.make_triggersT b d).1.2, ∀ k, a.deviceId = some k → k = d := by
    intro a ha k hk
    rw [make_triggersT_result] at ha
    simp only [List.mem_map] at ha
    obtain ⟨x, _, rfl⟩ := ha
    rcases x with ⟨t, xa⟩
    cases xa with
    | KeyboardInput m s =>
      simp [ConfigAction.make, Action.deviceId] at hk
      omega
    | ExecuteCommand p as => simp [ConfigAction.make, Action.deviceId] at hk
    | InlineScript code => simp [ConfigAction.make, Action.deviceId] at hk
  exact (key a₁ h₁ i hd₁).trans (key a₂ h₂ j hd₂).symm

/-- Witness for C4: realizing the example document for wayland (device ids
starting at 5) produces two Keyboard actions, one from the global list and one
from the wayland list, both holding device id 5. -/
theorem keyboard_actions_share_device_witness :
    Action.KeyboardInputAction 5 [10] [20, 21] ∈ (exConfig.make_triggersT true 5).1.2 ∧
    Action.KeyboardInputAction 5 [] [30] ∈ (exConfig.make_triggersT true 5).1.2 ∧
    (Action.KeyboardInputAction 5 [10] [20, 21]).deviceId = some 5 ∧
    (Action.KeyboardInputAction 5 [] [30]).deviceId = some 5 ∧
    (5 : Nat) = 5 :=
  ⟨by decide, by decide, rfl, rfl,
    keyboard_actions_share_device exConfig true 5
      (.KeyboardInputAction 5 [10] [20, 21]) (.KeyboardInputAction 5 [] [30])
      (by decide) (by decide) 5 5 rfl rfl⟩

/-- Counterexample for C5: on a document whose selected entries contain no
Keyboard action descriptor at all, the realization trace still contains a
device construction — the device count is 1, not the 0 the claim requires. -/
theorem device_created_with_no_keyboard_entries :
    ((exConfigNoKeyboard.selected false).all fun x => !x.action.isKeyboard) = true ∧
    ((exConfigNoKeyboard.make_triggersT false 0).2.countP Ev.isDeviceCreate) = 1 ∧
    ¬ ((exConfigNoKeyboard.make_triggersT false 0).2.countP Ev.isDeviceCreate = 0) := by
  decide

/-- C5 amended: within one realize invocation the shared device is created
eagerly, exactly once, as the first step of the invocation — before any entry
is examined and regardless of whether any Keyboard descriptor is present. -/
theorem device_created_eagerly_once (c : Config) (b : Bool) (d : Nat) :
    ((c.make_triggersT b d).2).head? = some (.deviceCreate d) ∧
    ((c.make_triggersT b d).2).countP Ev.isDeviceCreate = 1 := by
  refine ⟨rfl, ?_⟩
  show (Ev.deviceCreate d :: entryTrace c d 0 _).countP Ev.isDeviceCreate = 1
  rw [List.countP_cons]
  simp [Ev.isDeviceCreate, entryTrace_countP_deviceCreate]

/-- C8: every trigger-factory call of one realization carries the Document's
four post-defaulting thresholds unchanged, and there is exactly one such call
per selected Entry. -/
theorem trigger_factory_receives_document_thresholds (c : Config) (b : Bool)
    (d : Nat) :
    (∀ i t sw sh p r,
      Ev.triggerCall i t sw sh p r ∈ (c.make_triggersT b d).2 →
      sw = c.swipe_distance ∧ sh = c.shear_distance ∧ p = c.pinch_distance ∧
        r = c.rotation_distance) ∧
    ((c.make_triggersT b d).2).countP Ev.isTriggerCall = (c.selected b).length := by
  constructor
  · intro i t sw sh p r hm
    have hm' : Ev.triggerCall i t sw sh p r ∈
        Ev.deviceCreate d :: entryTrace c d 0 (c.selected b) := hm
    cases hm' with
    | tail _ h => exact entryTrace_triggerCall_mem c d (c.selected b) 0 i t sw sh p r h
  · show (Ev.deviceCreate d :: entryTrace c d 0 (c.selected b)).countP
        Ev.isTriggerCall = (c.selected b).length
    rw [List.countP_cons]
    simp [Ev.isTriggerCall, entryTrace_countP_triggerCall]

/-- Witness for C8: in the single-entry example document the one
trigger-factory call carries exactly the document thresholds (2, 3, 1, 4), and
there is one call for the one selected entry. -/
theorem trigger_factory_receives_document_thresholds_witness :
    Ev.triggerCall 0 ⟨1⟩ 2 3 1 4 ∈ (exConfigOne.make_triggersT false 0).2 ∧
    ((2 : Nat) = exConfigOne.swipe_distance ∧ (3 : Nat) = exConfigOne.shear_distance ∧
      (1 : Rat) = exConfigOne.pinch_distance ∧ (4 : Rat) = exConfigOne.rotation_distance) ∧
    ((exConfigOne.make_triggersT false 0).2).countP Ev.isTriggerCall =
      (exConfigOne.selected false).length :=
  ⟨by decide,
   (trigger_factory_receives_document_thresholds exConfigOne false 0).1 0 ⟨1⟩ 2 3 1 4
     (by decide),
   (trigger_factory_receives_document_thresholds exConfigOne false 0).2⟩

/-- Counterexample for C9: in the single-entry example document both factory
calls occur exactly once, and the action-factory call does not occur before
the trigger-factory call — the tuple expression of `make_triggers` evaluates
the trigger-factory call first. -/
theorem action_call_not_before_trigger_call :
    ((exConfigOne.make_triggersT false 0).2).count (Ev.triggerCall 0 ⟨1⟩ 2 3 1 4) = 1 ∧
    ((exConfigOne.make_triggersT false 0).2).count
      (Ev.actionCall 0 (.ExecuteCommand "a" []) 0) = 1 ∧
    ¬ (((exConfigOne.make_triggersT false 0).2).indexOf
          (Ev.actionCall 0 (.ExecuteCommand "a" []) 0) <
        ((exConfigOne.make_triggersT false 0).2).indexOf
          (Ev.triggerCall 0 ⟨1⟩ 2 3 1 4)) := by
  decide

/-- C9 amended: for each selected Entry the Action Factory and the Trigger
Factory are each called exactly once, with the Trigger Factory call occurring
before the Action Factory call, and the resulting pair is emitted for that
Entry. -/
theorem factories_called_once_per_entry_trigger_first (c : Config) (b : Bool)
    (d : Nat) (i : Nat) (h : i < (c.selected b).length) :
    List.Sublist
      [Ev.triggerCall i ((c.selected b).get ⟨i, h⟩).trigger c.swipe_distance
         c.shear_distance c.pinch_distance c.rotation_distance,
       Ev.actionCall i ((c.selected b).get ⟨i, h⟩).action d]
      ((c.make_triggersT b d).2) ∧
    ((c.make_triggersT b d).2).countP (Ev.isTriggerCallFor i) = 1 ∧
    ((c.make_triggersT b d).2).countP (Ev.isActionCallFor i) = 1 := by
  have hs := entryTrace_pair_sublist c d (c.selected b) 0 i h
  rw [Nat.zero_add] at hs
  refine ⟨.cons _ hs, ?_, ?_⟩
  · show (Ev.deviceCreate d :: entryTrace c d 0 (c.selected b)).countP
        (Ev.isTriggerCallFor i) = 1
    rw [List.countP_cons, entryTrace_countP_triggerCallFor c d (c.selected b) 0 i]
    simp [Ev.isTriggerCallFor]
    omega
  · show (Ev.deviceCreate d :: entryTrace c d 0 (c.selected b)).countP
        (Ev.isActionCallFor i) = 1
    rw [List.countP_cons, entryTrace_countP_actionCallFor c d (c.selected b) 0 i]
    simp [Ev.isActionCallFor]
    omega

/-- Witness for C9 amended: for entry 0 of the example document realized for
wayland, the trigger-factory call precedes the action-factory call in the
trace and each occurs exactly once. -/
theorem factories_called_once_per_entry_trigger_first_witness :
    0 < (exConfig.selected true).length ∧
    List.Sublist
      [Ev.triggerCall 0 ⟨1⟩ 7 8 2 45,
       Ev.actionCall 0 (.ExecuteCommand "/bin/echo" ["hi"]) 0]
      ((exConfig.make_triggersT true 0).2) ∧
    ((exConfig.make_triggersT true 0).2).countP (Ev.isTriggerCallFor 0) = 1 ∧
    ((exConfig.make_triggersT true 0).2).countP (Ev.isActionCallFor 0) = 1 :=
  ⟨by decide,
   (factories_called_once_per_entry_trigger_first exConfig true 0 0 (by decide)).1,
   (factories_called_once_per_entry_trigger_first exConfig true 0 0 (by decide)).2.1,
   (factories_called_once_per_entry_trigger_first exConfig true 0 0 (by decide)).2.2⟩

end Wzmach
